import Mathlib

/-!
Verification of the clientele testing utilities: the `ResponseFactory` and
`NetworkError` builders of clientele/testing.py, and the `FakeHTTPBackend`
stub dispatch engine they are used with.  Python values are shallowly
embedded: JSON-serializable data as an inductive `Json`, byte strings as
`List Nat`, Python dicts as insertion-ordered association lists, and the
fallible header-merge step as `Option`.
-/

set_option autoImplicit false

namespace Clientele

/-- A JSON-serializable Python value: `None`, booleans, integers, strings,
lists and dicts (insertion-ordered). -/
inductive Json where
  | null
  | bool (b : Bool)
  | num (n : Int)
  | str (s : String)
  | arr (items : List Json)
  | obj (fields : List (String × Json))

/-- Python truthiness (`if not data:`) restricted to JSON-serializable
values: `None`, `False`, `0`, the empty string, list and dict are falsy. -/
def Json.isFalsy : Json → Bool
  | .null => true
  | .bool b => !b
  | .num n => n == 0
  | .str s => s.isEmpty
  | .arr items => items.isEmpty
  | .obj fields => fields.isEmpty

/-- Hex digit character, lowercase, as produced by Python's json escapes. -/
def hexDigit (n : Nat) : Char :=
  if n < 10 then Char.ofNat (48 + n) else Char.ofNat (87 + n)

/-- Four-digit hexadecimal rendering used in `\uXXXX` escapes. -/
def hex4 (n : Nat) : String :=
  String.mk [hexDigit ((n >>> 12) &&& 15), hexDigit ((n >>> 8) &&& 15),
             hexDigit ((n >>> 4) &&& 15), hexDigit (n &&& 15)]

/-- Escaping of one character inside a JSON string literal, following
`json.dumps` defaults (`ensure_ascii=True`): printable ASCII is kept,
everything else is escaped, non-BMP code points as surrogate pairs. -/
def jsonEscapeChar (c : Char) : String :=
  if c = Char.ofNat 34 then String.mk [Char.ofNat 92, Char.ofNat 34]
  else if c = Char.ofNat 92 then String.mk [Char.ofNat 92, Char.ofNat 92]
  else if c = Char.ofNat 10 then String.mk [Char.ofNat 92, Char.ofNat 110]
  else if c = Char.ofNat 9 then String.mk [Char.ofNat 92, Char.ofNat 116]
  else if c = Char.ofNat 13 then String.mk [Char.ofNat 92, Char.ofNat 114]
  else if c = Char.ofNat 8 then String.mk [Char.ofNat 92, Char.ofNat 98]
  else if c = Char.ofNat 12 then String.mk [Char.ofNat 92, Char.ofNat 102]
  else if 32 ≤ c.toNat ∧ c.toNat < 127 then String.mk [c]
  else if c.toNat < 65536 then String.mk [Char.ofNat 92, Char.ofNat 117] ++ hex4 c.toNat
  else
    String.mk [Char.ofNat 92, Char.ofNat 117] ++ hex4 (55296 + ((c.toNat - 65536) >>> 10)) ++
    String.mk [Char.ofNat 92, Char.ofNat 117] ++ hex4 (56320 + ((c.toNat - 65536) &&& 1023))

/-- A JSON string literal: the escaped characters between double quotes. -/
def jsonQuote (s : String) : String :=
  String.mk [Char.ofNat 34] ++
    (s.data.foldr (fun c acc => jsonEscapeChar c ++ acc) "") ++
    String.mk [Char.ofNat 34]

mutual

/-- `json.dumps` with default arguments: item separator `", "`, key
separator `": "`, ASCII-only output. -/
def jsonDumps : Json → String
  | .null => "null"
  | .bool true => "true"
  | .bool false => "false"
  | .num n => toString n
  | .str s => jsonQuote s
  | .arr items => "[" ++ jsonDumpsItems items ++ "]"
  | .obj fields => "\x7b" ++ jsonDumpsFields fields ++ "\x7d"

/-- Comma-separated serialization of a JSON array's items. -/
def jsonDumpsItems : List Json → String
  | [] => ""
  | [x] => jsonDumps x
  | x :: y :: rest => jsonDumps x ++ ", " ++ jsonDumpsItems (y :: rest)

/-- Comma-separated serialization of a JSON object's key/value pairs. -/
def jsonDumpsFields : List (String × Json) → String
  | [] => ""
  | [(k, v)] => jsonQuote k ++ ": " ++ jsonDumps v
  | (k, v) :: g :: rest => jsonQuote k ++ ": " ++ jsonDumps v ++ ", " ++ jsonDumpsFields (g :: rest)

end

/-- UTF-8 encoding of one character as a list of byte values. -/
def utf8EncodeCharNat (c : Char) : List Nat :=
  let n := c.toNat
  if n < 128 then [n]
  else if n < 2048 then [192 ||| (n >>> 6), 128 ||| (n &&& 63)]
  else if n < 65536 then
    [224 ||| (n >>> 12), 128 ||| ((n >>> 6) &&& 63), 128 ||| (n &&& 63)]
  else
    [240 ||| (n >>> 18), 128 ||| ((n >>> 12) &&& 63),
     128 ||| ((n >>> 6) &&& 63), 128 ||| (n &&& 63)]

/-- `str.encode("utf-8")`: the UTF-8 bytes of a string. -/
def utf8Bytes (s : String) : List Nat :=
  s.data.foldr (fun c acc => utf8EncodeCharNat c ++ acc) []

/-- A Python `dict[str, str]` as an insertion-ordered association list. -/
abbrev HeaderMap := List (String × String)

/-- First-match key lookup in an association list (Python dict lookup; on a
dict-shaped list, keys are unique so first match is the only match). -/
def lookupKey (k : String) : HeaderMap → Option String
  | [] => none
  | (a, b) :: rest => if a = k then some b else lookupKey k rest

/-- Python dict insertion `d[k] = v`: overwrite in place when the key is
present (keeping its position), append otherwise. -/
def dictInsert (m : HeaderMap) (k v : String) : HeaderMap :=
  if m.any (fun p => p.1 = k) then m.map (fun p => if p.1 = k then (k, v) else p)
  else m ++ [(k, v)]

/-- The dict-display merge `\x7b**base, **extra\x7d`: entries of `extra` are
inserted into `base` in order, later values overwriting earlier ones. -/
def dictMerge (base extra : HeaderMap) : HeaderMap :=
  extra.foldl (fun acc p => dictInsert acc p.1 p.2) base

/-- `fake_backend.response.Response`: status code, headers and raw body
bytes of a fabricated HTTP response. -/
structure Response where
  status_code : Nat
  headers : HeaderMap
  content : List Nat
  deriving DecidableEq, Repr

namespace ResponseFactory

/-- The always-succeeding body of `ResponseFactory.json` once `headers` is
known to be a dict: serialize `data`, merge the default content-type header
with the caller's headers, caller winning on collision. -/
def jsonCore (data : Json) (status : Nat) (headers : HeaderMap) : Response :=
  { status_code := status
    content := utf8Bytes (jsonDumps data)
    headers := dictMerge [("content-type", "application/json")] headers }

/-- `ResponseFactory.json(data, status=200, headers={})`.  The declared
parameter type admits `headers=None`, and the merge `\x7b"content-type": ...,
**headers\x7d` raises `TypeError` on `None`; the `Option` result models
that: `none` is the `TypeError`, `some` carries the response. -/
def json (data : Json) (status : Nat) (headers : Option HeaderMap) :
    Option Response :=
  match headers with
  | none => none
  | some hs => some (jsonCore data status hs)

/-- The always-succeeding body of `ResponseFactory.text` for a dict-valued
`headers`: UTF-8 encode the body, default content-type `text/plain`. -/
def textCore (body : String) (status : Nat) (headers : HeaderMap) : Response :=
  { status_code := status
    content := utf8Bytes body
    headers := dictMerge [("content-type", "text/plain")] headers }

/-- `ResponseFactory.text(body, status=200, headers={})`; like `json`, the
header merge raises `TypeError` when `headers is None`. -/
def text (body : String) (status : Nat) (headers : Option HeaderMap) :
    Option Response :=
  match headers with
  | none => none
  | some hs => some (textCore body status hs)

/-- `ResponseFactory.empty(status=204)`: zero-length body, no headers. -/
def empty (status : Nat) : Response :=
  { status_code := status, content := [], headers := [] }

/-- `ResponseFactory.ok(data=None)`: empty 200 response when `data` is
falsy, otherwise the JSON response with status 200 (default headers). -/
def ok (data : Json) : Response :=
  if data.isFalsy then empty 200 else jsonCore data 200 []

/-- `ResponseFactory.created(data=None)`. -/
def created (data : Json) : Response :=
  if data.isFalsy then empty 201 else jsonCore data 201 []

/-- `ResponseFactory.accepted(data=None)`. -/
def accepted (data : Json) : Response :=
  if data.isFalsy then empty 202 else jsonCore data 202 []

/-- `ResponseFactory.bad_request(message="Bad Request")`. -/
def bad_request (message : String) : Response :=
  jsonCore (Json.obj [("error", Json.str message)]) 400 []

/-- `ResponseFactory.unauthorized(message="Unauthorized")`. -/
def unauthorized (message : String) : Response :=
  jsonCore (Json.obj [("error", Json.str message)]) 401 []

/-- `ResponseFactory.forbidden(message="Forbidden")`. -/
def forbidden (message : String) : Response :=
  jsonCore (Json.obj [("error", Json.str message)]) 403 []

/-- `ResponseFactory.not_found(message="Not Found")`. -/
def not_found (message : String) : Response :=
  jsonCore (Json.obj [("error", Json.str message)]) 404 []

/-- `ResponseFactory.conflict(message="Conflict")`. -/
def conflict (message : String) : Response :=
  jsonCore (Json.obj [("error", Json.str message)]) 409 []

/-- `ResponseFactory.unprocessable_entity(errors=None)`: body starts as
`\x7b"error": "Unprocessable Entity"\x7d` and gains an `"errors"` key when
`errors` is truthy (a non-empty dict). -/
def unprocessable_entity (errors : Option (List (String × List String))) : Response :=
  let base : List (String × Json) := [("error", Json.str "Unprocessable Entity")]
  let body : List (String × Json) :=
    match errors with
    | none => base
    | some es =>
        if es.isEmpty then base
        else base ++ [("errors", Json.obj (es.map (fun p => (p.1, Json.arr (p.2.map Json.str)))))]
  jsonCore (Json.obj body) 422 []

/-- `ResponseFactory.server_error(message="Internal Server Error")`. -/
def server_error (message : String) : Response :=
  jsonCore (Json.obj [("error", Json.str message)]) 500 []

/-- `ResponseFactory.service_unavailable(message="Service Unavailable")`. -/
def service_unavailable (message : String) : Response :=
  jsonCore (Json.obj [("error", Json.str message)]) 503 []

end ResponseFactory

/-- The four simulated transport fault kinds produced by `NetworkError`:
`TimeoutError`, `ConnectionRefusedError`, `ConnectionResetError` and the
plain `OSError` used for DNS failures. -/
inductive FaultKind where
  | timeoutError
  | connectionRefusedError
  | connectionResetError
  | osError
  deriving DecidableEq, Repr

/-- A simulated network fault value: its Python exception class and its
message. -/
structure SimFault where
  kind : FaultKind
  message : String
  deriving DecidableEq, Repr

namespace NetworkError

/-- `NetworkError.timeout(message="Request timed out")`. -/
def timeout (message : String) : SimFault :=
  { kind := FaultKind.timeoutError, message := message }

/-- `NetworkError.connection_refused(message="Connection refused")`. -/
def connection_refused (message : String) : SimFault :=
  { kind := FaultKind.connectionRefusedError, message := message }

/-- `NetworkError.connection_reset(message="Connection reset by peer")`. -/
def connection_reset (message : String) : SimFault :=
  { kind := FaultKind.connectionResetError, message := message }

/-- `NetworkError.dns_failure(host="unknown")`. -/
def dns_failure (host : String) : SimFault :=
  { kind := FaultKind.osError, message := "Failed to resolve hostname: " ++ host }

end NetworkError

/-- A request-log entry records the path dispatched and how the dispatch
resolved: the fault raised, a marker that a response was returned, or the
unmatched-request failure. -/
inductive LogOutcome where
  | error (e : SimFault)
  | responded
  | unmatchedRequest
  deriving DecidableEq, Repr

/-- One entry of the backend's chronological request log. -/
structure LogEntry where
  path : String
  outcome : LogOutcome
  deriving DecidableEq, Repr

/-- Modelled from the spec: `clientele.http.fake_backend.FakeHTTPBackend`
is not under src/ (only its tests and callers are).  Per spec section 3,
the registry holds a FIFO error queue and a FIFO response queue per path
plus an append-only request log; a path with an empty queue is equivalent
to an absent path, so each queue map is embedded as a total function from
paths to lists. -/
structure FakeHTTPBackend where
  error_map : String → List SimFault
  response_map : String → List Response
  requests : List LogEntry

namespace FakeHTTPBackend

/-- Modelled from the spec: a freshly constructed backend has no queued
faults, no queued responses and an empty request log. -/
def init : FakeHTTPBackend :=
  { error_map := fun _ => [], response_map := fun _ => [], requests := [] }

/-- Modelled from the spec: `queue_response(path, response)` appends
`response` to the response queue for `path`. -/
def queue_response (st : FakeHTTPBackend) (path : String) (r : Response) : FakeHTTPBackend :=
  { st with
    response_map := fun q => if q = path then st.response_map q ++ [r] else st.response_map q }

/-- Modelled from the spec: `queue_error(path, error)` appends `error` to
the error queue for `path`. -/
def queue_error (st : FakeHTTPBackend) (path : String) (e : SimFault) : FakeHTTPBackend :=
  { st with
    error_map := fun q => if q = path then st.error_map q ++ [e] else st.error_map q }

/-- Modelled from the spec: `reset()` clears the error-queue map and the
response-queue map, leaving the request log intact (spec sections 4.3
and 9). -/
def reset (st : FakeHTTPBackend) : FakeHTTPBackend :=
  { st with error_map := fun _ => [], response_map := fun _ => [] }

/-- The outcome of one dispatch: a raised simulated fault, a returned
response, or the unmatched-request error raised when nothing is queued for
the path. -/
inductive Outcome where
  | fault (e : SimFault)
  | response (r : Response)
  | unmatched (path : String)
  deriving DecidableEq, Repr

/-- Modelled from the spec: `dispatch(path)` (spec section 4.3) appends one
log entry, then pops and raises the front of the error queue if non-empty,
else pops and returns the front of the response queue if non-empty, else
fails with the unmatched-request error. -/
def dispatch (st : FakeHTTPBackend) (path : String) : Outcome × FakeHTTPBackend :=
  match st.error_map path with
  | e :: es =>
      (Outcome.fault e,
       { st with
         error_map := fun q => if q = path then es else st.error_map q
         requests := st.requests ++ [{ path := path, outcome := LogOutcome.error e }] })
  | [] =>
    match st.response_map path with
    | r :: rs =>
        (Outcome.response r,
         { st with
           response_map := fun q => if q = path then rs else st.response_map q
           requests := st.requests ++ [{ path := path, outcome := LogOutcome.responded }] })
    | [] =>
        (Outcome.unmatched path,
         { st with
           requests := st.requests ++ [{ path := path, outcome := LogOutcome.unmatchedRequest }] })

end FakeHTTPBackend

/-- One operation of a test scenario against the backend. -/
inductive Op where
  | queueResponse (path : String) (r : Response)
  | queueError (path : String) (e : SimFault)
  | resetOp
  | dispatchOp (path : String)

/-- Run a sequence of operations against the backend, discarding dispatch
outcomes (used to speak about the request log across whole scenarios). -/
def runOps (st : FakeHTTPBackend) : List Op → FakeHTTPBackend
  | [] => st
  | Op.queueResponse p r :: rest => runOps (st.queue_response p r) rest
  | Op.queueError p e :: rest => runOps (st.queue_error p e) rest
  | Op.resetOp :: rest => runOps st.reset rest
  | Op.dispatchOp p :: rest => runOps (st.dispatch p).2 rest

/-- The paths of the dispatch operations of a scenario, in order. -/
def dispatchPaths : List Op → List String
  | [] => []
  | Op.dispatchOp p :: rest => p :: dispatchPaths rest
  | _ :: rest => dispatchPaths rest

/-! Association-list lemmas about `lookupKey`, `dictInsert`, `dictMerge`. -/

theorem lookupKey_map_overwrite (k v : String) :
    ∀ m : HeaderMap, (m.any fun p => p.1 = k) = true →
      lookupKey k (m.map fun p => if p.1 = k then (k, v) else p) = some v := by
  intro m
  induction m with
  | nil => simp
  | cons hd tl ih =>
      obtain ⟨a, b⟩ := hd
      intro h
      simp only [List.map_cons]
      by_cases hk : (a, b).1 = k
      · rw [if_pos hk]
        simp [lookupKey]
      · rw [if_neg hk]
        simp only [lookupKey, if_neg hk]
        apply ih
        simp only [List.any_cons, Bool.or_eq_true, decide_eq_true_eq] at h
        rcases h with h | h
        · exact absurd h hk
        · exact h

theorem lookupKey_map_ne (k v q : String) (hq : q ≠ k) :
    ∀ m : HeaderMap,
      lookupKey q (m.map fun p => if p.1 = k then (k, v) else p) = lookupKey q m := by
  intro m
  induction m with
  | nil => rfl
  | cons hd tl ih =>
      obtain ⟨a, b⟩ := hd
      simp only [List.map_cons]
      by_cases hk : (a, b).1 = k
      · rw [if_pos hk]
        simp only [lookupKey]
        have haq : a ≠ q := fun h => hq (h.symm.trans hk)
        rw [if_neg (fun h => hq h.symm), if_neg haq]
        exact ih
      · rw [if_neg hk]
        simp only [lookupKey]
        by_cases haq : a = q
        · rw [if_pos haq, if_pos haq]
        · rw [if_neg haq, if_neg haq]
          exact ih

theorem lookupKey_append_no_key (k : String) :
    ∀ (m l : HeaderMap), (m.any fun p => p.1 = k) = false →
      lookupKey k (m ++ l) = lookupKey k l := by
  intro m l
  induction m with
  | nil => intro _; rfl
  | cons hd tl ih =>
      intro h
      simp only [List.any_cons, Bool.or_eq_false_iff, decide_eq_false_iff_not] at h
      simp only [List.cons_append, lookupKey, if_neg h.1]
      exact ih (by simpa using h.2)

theorem lookupKey_append_single_ne (q k v : String) (hq : q ≠ k) :
    ∀ m : HeaderMap, lookupKey q (m ++ [(k, v)]) = lookupKey q m := by
  intro m
  induction m with
  | nil =>
      have : k ≠ q := fun h => hq h.symm
      simp [lookupKey, this]
  | cons hd tl ih =>
      by_cases haq : hd.1 = q
      · simp [lookupKey, haq]
      · simp [lookupKey, haq, ih]

theorem lookupKey_dictInsert_self (m : HeaderMap) (k v : String) :
    lookupKey k (dictInsert m k v) = some v := by
  unfold dictInsert
  cases hany : (m.any fun p => p.1 = k) with
  | true =>
      simp only [hany, if_true]
      exact lookupKey_map_overwrite k v m hany
  | false =>
      simp only [hany, Bool.false_eq_true, if_false]
      rw [lookupKey_append_no_key k m [(k, v)] hany]
      simp [lookupKey]

theorem lookupKey_dictInsert_ne (m : HeaderMap) (k v q : String) (hq : q ≠ k) :
    lookupKey q (dictInsert m k v) = lookupKey q m := by
  unfold dictInsert
  cases hany : (m.any fun p => p.1 = k) with
  | true =>
      simp only [hany, if_true]
      exact lookupKey_map_ne k v q hq m
  | false =>
      simp only [hany, Bool.false_eq_true, if_false]
      exact lookupKey_append_single_ne q k v hq m

theorem dictMerge_nil (base : HeaderMap) : dictMerge base [] = base := rfl

theorem dictMerge_cons (base : HeaderMap) (a b : String) (t : HeaderMap) :
    dictMerge base ((a, b) :: t) = dictMerge (dictInsert base a b) t := rfl

theorem lookupKey_dictMerge_of_not_mem (k : String) :
    ∀ (extra base : HeaderMap), (∀ p ∈ extra, p.1 ≠ k) →
      lookupKey k (dictMerge base extra) = lookupKey k base := by
  intro extra
  induction extra with
  | nil => intro base _; rfl
  | cons hd tl ih =>
      intro base h
      cases hd with
      | mk a b =>
          rw [dictMerge_cons]
          have hk : k ≠ a := fun hk => (h (a, b) (by simp)) (by simp [hk])
          rw [ih (dictInsert base a b) (fun p hp => h p (List.mem_cons_of_mem _ hp))]
          exact lookupKey_dictInsert_ne base a b k hk

theorem lookupKey_dictMerge_mem (k v : String) :
    ∀ (extra base : HeaderMap), (extra.map Prod.fst).Nodup → (k, v) ∈ extra →
      lookupKey k (dictMerge base extra) = some v := by
  intro extra
  induction extra with
  | nil => intro base _ h; simp at h
  | cons hd tl ih =>
      intro base hnd hmem
      cases hd with
      | mk a b =>
          rw [dictMerge_cons]
          simp only [List.map_cons, List.nodup_cons, List.mem_map] at hnd
          rcases List.mem_cons.mp hmem with heq | htl
          · cases heq
            have hno : ∀ p ∈ tl, p.1 ≠ k := by
              intro p hp hpk
              exact hnd.1 ⟨p, hp, hpk⟩
            rw [lookupKey_dictMerge_of_not_mem k tl (dictInsert base k v) hno]
            exact lookupKey_dictInsert_self base k v
          · exact ih (dictInsert base a b) hnd.2 htl

/-! Request-log lemmas. -/

theorem dispatch_requests_map (st : FakeHTTPBackend) (p : String) :
    ((st.dispatch p).2).requests.map LogEntry.path = st.requests.map LogEntry.path ++ [p] := by
  unfold FakeHTTPBackend.dispatch
  cases he : st.error_map p with
  | cons e es => simp
  | nil =>
      cases hr : st.response_map p with
      | cons r rs => simp
      | nil => simp

theorem runOps_requests_map :
    ∀ (ops : List Op) (st : FakeHTTPBackend),
      (runOps st ops).requests.map LogEntry.path
        = st.requests.map LogEntry.path ++ dispatchPaths ops := by
  intro ops
  induction ops with
  | nil => intro st; simp [runOps, dispatchPaths]
  | cons op rest ih =>
      intro st
      cases op with
      | queueResponse p r =>
          rw [show runOps st (Op.queueResponse p r :: rest)
                = runOps (st.queue_response p r) rest from rfl]
          rw [ih]
          rfl
      | queueError p e =>
          rw [show runOps st (Op.queueError p e :: rest)
                = runOps (st.queue_error p e) rest from rfl]
          rw [ih]
          rfl
      | resetOp =>
          rw [show runOps st (Op.resetOp :: rest) = runOps st.reset rest from rfl]
          rw [ih]
          rfl
      | dispatchOp p =>
          rw [show runOps st (Op.dispatchOp p :: rest)
                = runOps (st.dispatch p).2 rest from rfl]
          rw [ih, dispatch_requests_map]
          simp [dispatchPaths]

/-! Claim theorems. -/

/-- C1: at a dispatch where both the error queue and the response queue for
the path are non-empty, the front of the error queue is popped and raised,
the response queue for the path is left unchanged, and the queued response
is returned only by a later dispatch once the error queue is empty. -/
theorem dispatch_error_priority (st : FakeHTTPBackend) (p : String)
    (e : SimFault) (es : List SimFault) (r : Response) (rs : List Response)
    (he : st.error_map p = e :: es) (hr : st.response_map p = r :: rs) :
    (st.dispatch p).1 = FakeHTTPBackend.Outcome.fault e ∧
    ((st.dispatch p).2).error_map p = es ∧
    ((st.dispatch p).2).response_map = st.response_map ∧
    (es = [] →
      (((st.dispatch p).2).dispatch p).1 = FakeHTTPBackend.Outcome.response r) := by
  have key : st.dispatch p =
      (FakeHTTPBackend.Outcome.fault e,
       { st with
         error_map := fun q => if q = p then es else st.error_map q
         requests := st.requests ++ [⟨p, LogOutcome.error e⟩] }) := by
    unfold FakeHTTPBackend.dispatch
    rw [he]
  refine ⟨by rw [key], by rw [key]; simp, by rw [key], ?_⟩
  intro hes
  subst hes
  rw [key]
  unfold FakeHTTPBackend.dispatch
  simp [hr]

/-- Concrete instance of C1: one timeout and one response queued on
"/resource"; the dispatch raises the timeout and keeps the response. -/
def prioState : FakeHTTPBackend :=
  (FakeHTTPBackend.init.queue_error "/resource"
      (NetworkError.timeout "Request timed out")).queue_response "/resource"
    (ResponseFactory.ok (Json.obj [("data", Json.str "value")]))

theorem dispatch_error_priority_witness :
    (prioState.dispatch "/resource").1
      = FakeHTTPBackend.Outcome.fault (NetworkError.timeout "Request timed out") ∧
    ((prioState.dispatch "/resource").2).error_map "/resource" = [] ∧
    ((prioState.dispatch "/resource").2).response_map = prioState.response_map ∧
    (([] : List SimFault) = [] →
      (((prioState.dispatch "/resource").2).dispatch "/resource").1
        = FakeHTTPBackend.Outcome.response
            (ResponseFactory.ok (Json.obj [("data", Json.str "value")]))) :=
  dispatch_error_priority prioState "/resource" (NetworkError.timeout "Request timed out") []
    (ResponseFactory.ok (Json.obj [("data", Json.str "value")])) [] rfl rfl

/-- The C2 scenario: faults e1 then e2 then a response r1 queued for one
path on a fresh backend. -/
def fifoScenario (p : String) (e1 e2 : SimFault) (r1 : Response) : FakeHTTPBackend :=
  ((FakeHTTPBackend.init.queue_error p e1).queue_error p e2).queue_response p r1

/-- C2: queued faults and responses are consumed in FIFO order: after
queuing faults e1 then e2 and a response r1 for the same path, three
successive dispatches yield e1 raised, e2 raised, r1 returned. -/
theorem dispatch_fifo (p : String) (e1 e2 : SimFault) (r1 : Response) :
    ((fifoScenario p e1 e2 r1).dispatch p).1 = FakeHTTPBackend.Outcome.fault e1 ∧
    ((((fifoScenario p e1 e2 r1).dispatch p).2).dispatch p).1
      = FakeHTTPBackend.Outcome.fault e2 ∧
    (((((fifoScenario p e1 e2 r1).dispatch p).2).dispatch p).2.dispatch p).1
      = FakeHTTPBackend.Outcome.response r1 := by
  unfold fifoScenario FakeHTTPBackend.queue_error FakeHTTPBackend.queue_response
    FakeHTTPBackend.init FakeHTTPBackend.dispatch
  simp

/-- C3: a dispatch to a path with neither a fault nor a response queued
fails with the unmatched-request outcome, which is distinct from every
simulated fault outcome and from every response outcome. -/
theorem dispatch_unmatched_when_unconfigured (st : FakeHTTPBackend) (p : String)
    (he : st.error_map p = []) (hr : st.response_map p = []) :
    (st.dispatch p).1 = FakeHTTPBackend.Outcome.unmatched p ∧
    (∀ e : SimFault, (st.dispatch p).1 ≠ FakeHTTPBackend.Outcome.fault e) ∧
    (∀ r : Response, (st.dispatch p).1 ≠ FakeHTTPBackend.Outcome.response r) := by
  have key : (st.dispatch p).1 = FakeHTTPBackend.Outcome.unmatched p := by
    unfold FakeHTTPBackend.dispatch
    rw [he, hr]
  exact ⟨key, fun e => by simp [key], fun r => by simp [key]⟩

theorem dispatch_unmatched_when_unconfigured_witness :
    (FakeHTTPBackend.init.dispatch "/users").1
      = FakeHTTPBackend.Outcome.unmatched "/users" ∧
    (∀ e : SimFault,
      (FakeHTTPBackend.init.dispatch "/users").1 ≠ FakeHTTPBackend.Outcome.fault e) ∧
    (∀ r : Response,
      (FakeHTTPBackend.init.dispatch "/users").1 ≠ FakeHTTPBackend.Outcome.response r) :=
  dispatch_unmatched_when_unconfigured FakeHTTPBackend.init "/users" rfl rfl

/-- C4: reset clears both queue maps and nothing else: after reset every
path has empty queues, a dispatch to any path fails with unmatched-request,
and the request log is left intact. -/
theorem reset_clears_queues_only (st : FakeHTTPBackend) (p : String) :
    st.reset.error_map p = [] ∧
    st.reset.response_map p = [] ∧
    st.reset.requests = st.requests ∧
    (st.reset.dispatch p).1 = FakeHTTPBackend.Outcome.unmatched p := by
  refine ⟨rfl, rfl, rfl, ?_⟩
  unfold FakeHTTPBackend.reset FakeHTTPBackend.dispatch
  rfl

/-- C5: every dispatch appends exactly one entry (for its path) to the
request log; any scenario of operations containing N dispatches grows the
log by exactly the N dispatched paths, in dispatch order. -/
theorem dispatch_logs_every_request (st : FakeHTTPBackend) (p : String) (ops : List Op) :
    (∃ o : LogOutcome, ((st.dispatch p).2).requests = st.requests ++ [⟨p, o⟩]) ∧
    (runOps st ops).requests.map LogEntry.path
      = st.requests.map LogEntry.path ++ dispatchPaths ops ∧
    (runOps FakeHTTPBackend.init ops).requests.length = (dispatchPaths ops).length := by
  refine ⟨?_, runOps_requests_map ops st, ?_⟩
  · cases he : st.error_map p with
    | cons e es =>
        refine ⟨LogOutcome.error e, ?_⟩
        unfold FakeHTTPBackend.dispatch
        rw [he]
    | nil =>
        cases hr : st.response_map p with
        | cons r rs =>
            refine ⟨LogOutcome.responded, ?_⟩
            unfold FakeHTTPBackend.dispatch
            rw [he, hr]
        | nil =>
            refine ⟨LogOutcome.unmatchedRequest, ?_⟩
            unfold FakeHTTPBackend.dispatch
            rw [he, hr]
  · have h := congrArg List.length (runOps_requests_map ops FakeHTTPBackend.init)
    simpa [FakeHTTPBackend.init] using h

/-- C6: queues for distinct paths are independent: queuing or dispatching
on one path leaves the queues of every other path unchanged, and queuing
for one path never satisfies a dispatch to a different path. -/
theorem path_isolation (st : FakeHTTPBackend) (p q : String) (r : Response) (e : SimFault)
    (hq : q ≠ p) :
    ((st.queue_response p r).error_map q = st.error_map q ∧
     (st.queue_response p r).response_map q = st.response_map q) ∧
    ((st.queue_error p e).error_map q = st.error_map q ∧
     (st.queue_error p e).response_map q = st.response_map q) ∧
    (((st.dispatch p).2).error_map q = st.error_map q ∧
     ((st.dispatch p).2).response_map q = st.response_map q) ∧
    ((FakeHTTPBackend.init.queue_response p r).dispatch q).1
      = FakeHTTPBackend.Outcome.unmatched q ∧
    ((FakeHTTPBackend.init.queue_error p e).dispatch q).1
      = FakeHTTPBackend.Outcome.unmatched q := by
  refine ⟨⟨rfl, by simp [FakeHTTPBackend.queue_response, hq]⟩,
          ⟨by simp [FakeHTTPBackend.queue_error, hq], rfl⟩, ?_, ?_, ?_⟩
  · cases he : st.error_map p with
    | cons e2 es =>
        constructor
        · unfold FakeHTTPBackend.dispatch
          rw [he]
          simp [hq]
        · unfold FakeHTTPBackend.dispatch
          rw [he]
    | nil =>
        cases hr : st.response_map p with
        | cons r2 rs =>
            constructor
            · unfold FakeHTTPBackend.dispatch
              rw [he, hr]
            · unfold FakeHTTPBackend.dispatch
              rw [he, hr]
              simp [hq]
        | nil =>
            constructor
            · unfold FakeHTTPBackend.dispatch
              rw [he, hr]
            · unfold FakeHTTPBackend.dispatch
              rw [he, hr]
  · unfold FakeHTTPBackend.queue_response FakeHTTPBackend.init FakeHTTPBackend.dispatch
    simp [hq]
  · unfold FakeHTTPBackend.queue_error FakeHTTPBackend.init FakeHTTPBackend.dispatch
    simp [hq]

theorem path_isolation_witness :
    ((FakeHTTPBackend.init.queue_response "/a" (ResponseFactory.empty 204)).error_map "/b"
        = FakeHTTPBackend.init.error_map "/b" ∧
     (FakeHTTPBackend.init.queue_response "/a" (ResponseFactory.empty 204)).response_map "/b"
        = FakeHTTPBackend.init.response_map "/b") ∧
    ((FakeHTTPBackend.init.queue_error "/a" (NetworkError.timeout "Request timed out")).error_map "/b"
        = FakeHTTPBackend.init.error_map "/b" ∧
     (FakeHTTPBackend.init.queue_error "/a" (NetworkError.timeout "Request timed out")).response_map "/b"
        = FakeHTTPBackend.init.response_map "/b") ∧
    (((FakeHTTPBackend.init.dispatch "/a").2).error_map "/b"
        = FakeHTTPBackend.init.error_map "/b" ∧
     ((FakeHTTPBackend.init.dispatch "/a").2).response_map "/b"
        = FakeHTTPBackend.init.response_map "/b") ∧
    ((FakeHTTPBackend.init.queue_response "/a" (ResponseFactory.empty 204)).dispatch "/b").1
      = FakeHTTPBackend.Outcome.unmatched "/b" ∧
    ((FakeHTTPBackend.init.queue_error "/a" (NetworkError.timeout "Request timed out")).dispatch "/b").1
      = FakeHTTPBackend.Outcome.unmatched "/b" :=
  path_isolation FakeHTTPBackend.init "/a" "/b" (ResponseFactory.empty 204)
    (NetworkError.timeout "Request timed out") (by decide)

/-- C7: ResponseFactory.json returns a response whose headers are the
default content-type: application/json merged with the caller-supplied
headers, caller-supplied values winning on key collision, and whose content
is the UTF-8 encoding of the JSON serialization of the data. -/
theorem json_header_merge (data : Json) (status : Nat) (hs : HeaderMap)
    (hnd : (hs.map Prod.fst).Nodup) :
    ∃ resp : Response,
      ResponseFactory.json data status (some hs) = some resp ∧
      resp.status_code = status ∧
      resp.content = utf8Bytes (jsonDumps data) ∧
      resp.headers = dictMerge [("content-type", "application/json")] hs ∧
      (∀ k v : String, (k, v) ∈ hs → lookupKey k resp.headers = some v) ∧
      ((∀ pr ∈ hs, pr.1 ≠ "content-type") →
        lookupKey "content-type" resp.headers = some "application/json") := by
  refine ⟨ResponseFactory.jsonCore data status hs, rfl, rfl, rfl, rfl, ?_, ?_⟩
  · intro k v hkv
    exact lookupKey_dictMerge_mem k v hs _ hnd hkv
  · intro hno
    rw [show (ResponseFactory.jsonCore data status hs).headers
          = dictMerge [("content-type", "application/json")] hs from rfl]
    rw [lookupKey_dictMerge_of_not_mem "content-type" hs _ hno]
    rfl

theorem json_header_merge_witness :
    ∃ resp : Response,
      ResponseFactory.json (Json.obj [("result", Json.str "ok")]) 200
          (some [("X-Custom-Header", "custom-value")]) = some resp ∧
      resp.status_code = 200 ∧
      resp.content = utf8Bytes (jsonDumps (Json.obj [("result", Json.str "ok")])) ∧
      resp.headers = dictMerge [("content-type", "application/json")]
          [("X-Custom-Header", "custom-value")] ∧
      (∀ k v : String, (k, v) ∈ [("X-Custom-Header", "custom-value")] →
        lookupKey k resp.headers = some v) ∧
      ((∀ pr ∈ [("X-Custom-Header", "custom-value")], pr.1 ≠ "content-type") →
        lookupKey "content-type" resp.headers = some "application/json") :=
  json_header_merge (Json.obj [("result", Json.str "ok")]) 200
    [("X-Custom-Header", "custom-value")] (by decide)

/-- C8: ok/created/accepted return the empty response with status
200/201/202 when data is falsy, and otherwise the JSON response for data
with that status, including the content-type: application/json header. -/
theorem ok_created_accepted_falsy (data : Json) :
    (data.isFalsy = true →
      ResponseFactory.ok data = { status_code := 200, headers := [], content := [] } ∧
      ResponseFactory.created data = { status_code := 201, headers := [], content := [] } ∧
      ResponseFactory.accepted data = { status_code := 202, headers := [], content := [] }) ∧
    (data.isFalsy = false →
      ResponseFactory.ok data = ResponseFactory.jsonCore data 200 [] ∧
      ResponseFactory.created data = ResponseFactory.jsonCore data 201 [] ∧
      ResponseFactory.accepted data = ResponseFactory.jsonCore data 202 [] ∧
      lookupKey "content-type" (ResponseFactory.ok data).headers
        = some "application/json" ∧
      (ResponseFactory.ok data).content = utf8Bytes (jsonDumps data)) := by
  constructor
  · intro h
    refine ⟨?_, ?_, ?_⟩ <;>
      simp [ResponseFactory.ok, ResponseFactory.created, ResponseFactory.accepted,
        ResponseFactory.empty, h]
  · intro h
    have hok : ResponseFactory.ok data = ResponseFactory.jsonCore data 200 [] := by
      simp [ResponseFactory.ok, h]
    have hcr : ResponseFactory.created data = ResponseFactory.jsonCore data 201 [] := by
      simp [ResponseFactory.created, h]
    have hac : ResponseFactory.accepted data = ResponseFactory.jsonCore data 202 [] := by
      simp [ResponseFactory.accepted, h]
    refine ⟨hok, hcr, hac, ?_, ?_⟩
    · rw [hok]
      rfl
    · rw [hok]
      rfl

theorem ok_created_accepted_falsy_witness :
    (ResponseFactory.ok Json.null = { status_code := 200, headers := [], content := [] } ∧
     ResponseFactory.created Json.null = { status_code := 201, headers := [], content := [] } ∧
     ResponseFactory.accepted Json.null
       = { status_code := 202, headers := [], content := [] }) ∧
    (ResponseFactory.ok (Json.obj [("x", Json.num 1)])
        = ResponseFactory.jsonCore (Json.obj [("x", Json.num 1)]) 200 [] ∧
     lookupKey "content-type" (ResponseFactory.ok (Json.obj [("x", Json.num 1)])).headers
        = some "application/json") :=
  ⟨(ok_created_accepted_falsy Json.null).1 rfl,
   ((ok_created_accepted_falsy (Json.obj [("x", Json.num 1)])).2 rfl).1,
   ((ok_created_accepted_falsy (Json.obj [("x", Json.num 1)])).2 rfl).2.2.2.1⟩

/-- C9: unprocessable_entity returns status 422 with JSON body
consisting of the error message alone when errors is None or empty, and
with the additional errors key when errors is a non-empty mapping. -/
theorem unprocessable_entity_body (errors : Option (List (String × List String))) :
    (ResponseFactory.unprocessable_entity errors).status_code = 422 ∧
    (errors = none →
      (ResponseFactory.unprocessable_entity errors).content
        = utf8Bytes (jsonDumps (Json.obj [("error", Json.str "Unprocessable Entity")]))) ∧
    (errors = some [] →
      (ResponseFactory.unprocessable_entity errors).content
        = utf8Bytes (jsonDumps (Json.obj [("error", Json.str "Unprocessable Entity")]))) ∧
    (∀ es : List (String × List String), errors = some es → es ≠ [] →
      (ResponseFactory.unprocessable_entity errors).content
        = utf8Bytes (jsonDumps (Json.obj
            [("error", Json.str "Unprocessable Entity"),
             ("errors", Json.obj (es.map fun pr => (pr.1, Json.arr (pr.2.map Json.str))))]))) := by
  refine ⟨rfl, ?_, ?_, ?_⟩
  · intro h
    subst h
    rfl
  · intro h
    subst h
    rfl
  · intro es h hne
    subst h
    cases es with
    | nil => exact absurd rfl hne
    | cons a t => rfl

theorem unprocessable_entity_body_witness :
    (ResponseFactory.unprocessable_entity (some [("email", ["Invalid"])])).status_code = 422 ∧
    (ResponseFactory.unprocessable_entity (some [("email", ["Invalid"])])).content
      = utf8Bytes (jsonDumps (Json.obj
          [("error", Json.str "Unprocessable Entity"),
           ("errors", Json.obj [("email", Json.arr [Json.str "Invalid"])])])) ∧
    (ResponseFactory.unprocessable_entity none).content
      = utf8Bytes (jsonDumps (Json.obj [("error", Json.str "Unprocessable Entity")])) :=
  ⟨(unprocessable_entity_body (some [("email", ["Invalid"])])).1,
   (unprocessable_entity_body (some [("email", ["Invalid"])])).2.2.2
     [("email", ["Invalid"])] rfl (by decide),
   (unprocessable_entity_body none).2.1 rfl⟩

/-- C10: calling ResponseFactory.json or ResponseFactory.text with
headers=None fails with a type error at the header-merge step instead of
returning a response; a mapping value for headers always yields one. -/
theorem json_text_headers_none (data : Json) (body : String) (status : Nat) (hs : HeaderMap) :
    ResponseFactory.json data status none = none ∧
    ResponseFactory.text body status none = none ∧
    ResponseFactory.json data status (some hs)
      = some (ResponseFactory.jsonCore data status hs) ∧
    ResponseFactory.text body status (some hs)
      = some (ResponseFactory.textCore body status hs) :=
  ⟨rfl, rfl, rfl, rfl⟩

end Clientele
